import Mathlib

/-!
Shallow embedding of the gymo account service (controllers/user.go and the
contacts controller) together with proofs of its specified properties.

The GORM database is modelled as lists of records; each handler is a pure
function from the database, the parsed request and a fault schedule (an
`Option String` per storage call: `some e` means that call returns error `e`)
to an HTTP response and the updated database.  JSON/query binding is taken
as already-parsed input; a bind failure is modelled where the relevant
handler branches on it.
-/

namespace Gymo

/-- A stored user record (models.User): surrogate id, public UID, username,
unique email, password (hash digest on disk), last-login Unix timestamp. -/
structure User where
  id : Nat
  uid : Nat
  username : String
  email : String
  password : String
  lastLogin : Int
  deriving Repr, DecidableEq

/-- A confirmed contact row, keyed by (user UID, friend UID). -/
structure Contact where
  userUID : Nat
  firendUID : Nat
  deriving Repr, DecidableEq

/-- A pending directional friend request row (models.FirendRequest). -/
structure FirendRequest where
  fromUserUID : Nat
  toUserUID : Nat
  deriving Repr, DecidableEq

/-- The persistent store: users, contacts, friend requests. -/
structure Db where
  users : List User
  contacts : List Contact
  firendRequests : List FirendRequest
  deriving Repr, DecidableEq

/-- Modelled from the spec: `HashPassword(plaintext) -> hash` — the
credential component of the missing models package.  A deterministic,
non-reversible transform whose output is never the plaintext; the digest
is modelled as a tagged string. -/
def HashPassword (plaintext : String) : String :=
  "bcrypt$" ++ plaintext

/-- Modelled from the spec: `CheckPasswordHash(plaintext, storedHash) ->
ok | MismatchError` — succeeds exactly when the plaintext hashes to the
stored digest, and fails with a mismatch error otherwise. -/
def CheckPasswordHash (plaintext storedHash : String) : Except String Unit :=
  if HashPassword plaintext = storedHash then Except.ok ()
  else Except.error "hashedPassword is not the hash of the given password"

/-- Modelled from the spec: the token payload — a signed credential
embedding the user id and the login timestamp at issuance (signing and the
expiry window belong to the collaborator and are not needed here). -/
structure Token where
  userID : Nat
  loginTimestamp : Int
  deriving Repr, DecidableEq

/-- Modelled from the spec: `GenerateToken(userID, loginTimestamp) ->
token | error` of the missing utils package; the fault argument injects the
token-generation error branch the handler checks. -/
def GenerateToken (userID : Nat) (loginTimestamp : Int)
    (fault : Option String) : Except String Token :=
  match fault with
  | some e => Except.error e
  | none => Except.ok ⟨userID, loginTimestamp⟩

/-- The public profile fields returned by the handlers (BasicInfo). -/
structure BasicInfo where
  id : Nat
  email : String
  username : String
  deriving Repr, DecidableEq

/-- The `data` field of a response envelope. -/
inductive Payload where
  | noData : Payload
  | info : BasicInfo → Payload
  | login : Nat → String → String → Token → Payload
  | text : String → Payload
  deriving Repr, DecidableEq

/-- The response envelope (utils.BasicRes plus the HTTP status code the
handler passes to c.JSON). -/
structure HttpResponse where
  code : Nat
  status : String
  message : String
  data : Payload
  deriving Repr, DecidableEq

/-- GET /user — lookup by email (User.GetUser).  `findErr` injects a
storage error on the Find call. -/
def GetUser (db : Db) (findErr : Option String) (email : String) :
    HttpResponse :=
  if email = "" then ⟨400, "error", "email is empty", Payload.noData⟩
  else
    match findErr with
    | some e => ⟨500, "error", e, Payload.noData⟩
    | none =>
      match (db.users.filter (fun x => x.email == email)).head? with
      | none => ⟨400, "error", "user not exist", Payload.noData⟩
      | some u =>
        ⟨200, "ok", "", Payload.info ⟨u.id, u.email, u.username⟩⟩

/-- The parsed register body (UserJson). -/
structure UserJson where
  username : String
  password : String
  email : String
  deriving Repr, DecidableEq

/-- POST /register — find-or-create by email (User.AddUser).  `createErr`
injects a storage error on the FirstOrCreate call; `newId`/`newUid` are the
keys the store assigns to a freshly created row. -/
def AddUser (db : Db) (createErr : Option String) (userInfo : UserJson)
    (newId newUid : Nat) : HttpResponse × Db :=
  match createErr with
  | some e => (⟨500, "error", e, Payload.noData⟩, db)
  | none =>
    if (db.users.filter (fun x => x.email == userInfo.email)).isEmpty then
      let u : User :=
        ⟨newId, newUid, userInfo.username, userInfo.email,
          userInfo.password, 0⟩
      (⟨200, "ok", "",
          Payload.info ⟨u.id, u.email, u.username⟩⟩,
        { db with users := db.users ++ [u] })
    else
      (⟨400, "error", "user already exist", Payload.noData⟩, db)

/-- gorm Db.Save on a record whose primary key is set: update the row with
that key in place. -/
def saveUser (db : Db) (u : User) : Db :=
  { db with users := db.users.map (fun x => if x.id == u.id then u else x) }

/-- The parsed modify body (UserModify); no field is required and an absent
JSON field decodes to the empty string. -/
structure UserModify where
  username : String
  password : String
  email : String
  deriving Repr, DecidableEq

/-- PATCH /user — self-service partial update (User.ModifyUser).
`ctxUser` is the record session resolution attached to the context (`none`
when it did not run or did not attach one); `saveErr` injects a storage
error on the Save call. -/
def ModifyUser (db : Db) (ctxUser : Option User) (userInfo : UserModify)
    (saveErr : Option String) : HttpResponse × Db :=
  match ctxUser with
  | none => (⟨500, "error", "parse token failed", Payload.noData⟩, db)
  | some u0 =>
    let u1 := if userInfo.username != "" then
        { u0 with username := userInfo.username } else u0
    let u2 := if userInfo.email != "" then
        { u1 with email := userInfo.email } else u1
    let u3 := if userInfo.password != "" then
        { u2 with password := HashPassword userInfo.password } else u2
    match saveErr with
    | some e => (⟨500, "error", e, Payload.noData⟩, db)
    | none =>
      (⟨200, "ok", "", Payload.info ⟨u3.id, u3.email, u3.username⟩⟩,
        saveUser db u3)

/-- The parsed login body (UserLogin). -/
structure UserLogin where
  email : String
  password : String
  deriving Repr, DecidableEq

/-- POST /login — verify password, issue token, persist last-login
(User.Login).  `now` is time.Now().Unix(); `findErr`, `tokenErr` and
`saveErr` inject failures of the user lookup, token generation and the
final Save.  The source ignores the result of the final Save, so a failed
save leaves the store unchanged but does not alter the response. -/
def Login (db : Db) (userInfo : UserLogin) (findErr tokenErr : Option String)
    (saveErr : Option String) (now : Int) : HttpResponse × Db :=
  match findErr with
  | some e => (⟨500, "error", e, Payload.noData⟩, db)
  | none =>
    match (db.users.filter (fun x => x.email == userInfo.email)).head? with
    | none => (⟨400, "error", "user not exist", Payload.noData⟩, db)
    | some u =>
      match CheckPasswordHash userInfo.password u.password with
      | Except.error _ =>
        (⟨400, "error", "password not correct", Payload.noData⟩, db)
      | Except.ok _ =>
        let lastLogin := now
        match GenerateToken u.id lastLogin tokenErr with
        | Except.error e => (⟨500, "error", e, Payload.noData⟩, db)
        | Except.ok token =>
          let db2 := if saveErr.isSome then db
            else saveUser db { u with lastLogin := lastLogin }
          (⟨200, "ok", "",
              Payload.login u.id u.email u.username token⟩, db2)

/-- POST /user — return the current logged-in user (User.UserSelf).
Reads only the context-attached record, never the store. -/
def UserSelf (ctxUser : Option User) : HttpResponse :=
  match ctxUser with
  | none => ⟨500, "error", "parse token failed", Payload.noData⟩
  | some u =>
    ⟨200, "ok", "", Payload.info ⟨u.id, u.email, u.username⟩⟩

/-- DELETE — hard delete of the current user keyed by email (User.Delete).
`delErr` injects a storage error on the Delete call. -/
def Delete (db : Db) (ctxUser : Option User) (delErr : Option String) :
    HttpResponse × Db :=
  match ctxUser with
  | none => (⟨500, "error", "parse token failed", Payload.noData⟩, db)
  | some u =>
    match delErr with
    | some e => (⟨500, "error", e, Payload.noData⟩, db)
    | none =>
      (⟨200, "ok", "",
          Payload.text ("account " ++ u.email ++ " has been deleted")⟩,
        { db with users := db.users.filter (fun x => x.email != u.email) })

/-- The storage calls MakeFirend can issue, recorded as an observable
trace so that short-circuiting is provable. -/
inductive StorageOp where
  | findUserByUid : Nat → StorageOp
  | findContact : Nat → Nat → StorageOp
  | findFirendRequest : Nat → Nat → StorageOp
  | saveFirendRequest : Nat → Nat → StorageOp
  deriving Repr, DecidableEq

/-- The target-existence query of MakeFirend: some user row has this UID. -/
def targetExists (db : Db) (uid : Nat) : Bool :=
  !(db.users.filter (fun x => x.uid == uid)).isEmpty

/-- The already-contact query of MakeFirend: a Contact row keyed by the
ordered pair (user UID, friend UID) exists. -/
def isContact (db : Db) (userUid firendUid : Nat) : Bool :=
  !(db.contacts.filter
      (fun x => x.userUID == userUid && x.firendUID == firendUid)).isEmpty

/-- The duplicate-request query of MakeFirend: a FirendRequest row keyed by
the ordered pair (from UID, to UID) exists. -/
def hasPending (db : Db) (fromUid toUid : Nat) : Bool :=
  !(db.firendRequests.filter
      (fun r => r.fromUserUID == fromUid && r.toUserUID == toUid)).isEmpty

/-- The parsed friend-request body (MakeFirendJson). -/
structure MakeFirendJson where
  uid : Nat
  deriving Repr, DecidableEq

/-- POST friend request (Contacts.MakeFirend): reject self, load the
target by UID, reject an existing contact, reject an existing pending
request for the ordered pair, then persist FirendRequest(from, to).  `u`
is the context-attached requester; the three `Option String` faults inject
storage errors on the three Find calls.  Returns the response, the updated
store and the trace of storage calls issued. -/
def MakeFirend (db : Db) (u : User) (info : MakeFirendJson)
    (findUserErr findContactErr findReqErr : Option String) :
    HttpResponse × Db × List StorageOp :=
  if info.uid == u.uid then
    (⟨422, "error", "cannot make firend with self", Payload.noData⟩, db, [])
  else
    match findUserErr with
    | some e =>
      (⟨500, "error", e, Payload.noData⟩, db,
        [StorageOp.findUserByUid info.uid])
    | none =>
      match (db.users.filter (fun x => x.uid == info.uid)).head? with
      | none =>
        (⟨422, "error", "target user not exist", Payload.noData⟩, db,
          [StorageOp.findUserByUid info.uid])
      | some firend =>
        match findContactErr with
        | some e =>
          (⟨500, "error", e, Payload.noData⟩, db,
            [StorageOp.findUserByUid info.uid,
              StorageOp.findContact u.uid info.uid])
        | none =>
          if isContact db u.uid info.uid then
            (⟨422, "error", "target user is already firend",
                Payload.noData⟩, db,
              [StorageOp.findUserByUid info.uid,
                StorageOp.findContact u.uid info.uid])
          else
            match findReqErr with
            | some e =>
              (⟨500, "error", e, Payload.noData⟩, db,
                [StorageOp.findUserByUid info.uid,
                  StorageOp.findContact u.uid info.uid,
                  StorageOp.findFirendRequest u.uid info.uid])
            | none =>
              if hasPending db u.uid info.uid then
                (⟨422, "error",
                    "already sent a request to user " ++
                      toString firend.uid, Payload.noData⟩, db,
                  [StorageOp.findUserByUid info.uid,
                    StorageOp.findContact u.uid info.uid,
                    StorageOp.findFirendRequest u.uid info.uid])
              else
                (⟨200, "ok", "", Payload.noData⟩,
                  { db with firendRequests :=
                      db.firendRequests ++ [⟨u.uid, firend.uid⟩] },
                  [StorageOp.findUserByUid info.uid,
                    StorageOp.findContact u.uid info.uid,
                    StorageOp.findFirendRequest u.uid info.uid,
                    StorageOp.saveFirendRequest u.uid firend.uid])

/-- Sample store for the login-related witnesses: one registered user. -/
def dbC1 : Db :=
  ⟨[⟨1, 11, "alice", "a@x.com", HashPassword "pw1", 0⟩], [], []⟩

/-- Sample store for the failed-save scenario: one registered user. -/
def dbC2 : Db :=
  ⟨[⟨1, 11, "alice", "a@x.com", HashPassword "pw1", 0⟩], [], []⟩

/-- Sample store for the duplicate-registration scenario. -/
def dbC3 : Db :=
  ⟨[⟨1, 11, "alice", "a@x.com", HashPassword "pw1", 0⟩], [], []⟩

/-- Sample store for the wrong-password scenario. -/
def dbC6 : Db :=
  ⟨[⟨1, 11, "alice", "a@x.com", HashPassword "pw1", 0⟩], [], []⟩

/-- Empty store for the lookup-miss scenario. -/
def dbC9 : Db := ⟨[], [], []⟩

/-- Sample store and user for the partial-update witness. -/
def dbC8 : Db :=
  ⟨[⟨1, 11, "alice", "a@x.com", HashPassword "pw1", 5⟩,
    ⟨2, 22, "bob", "b@x.com", HashPassword "pw2", 7⟩], [], []⟩

/-- Sample store for the duplicate-request witness: a pending request
from UID 1 to UID 2 already exists. -/
def dbC5 : Db :=
  ⟨[⟨1, 1, "alice", "a@x.com", HashPassword "pw1", 0⟩,
    ⟨2, 2, "bob", "b@x.com", HashPassword "pw2", 0⟩], [], [⟨1, 2⟩]⟩

/-- Sample store for the directionality witness: only the reverse request
(from UID 2 to UID 1) exists. -/
def dbC7 : Db :=
  ⟨[⟨1, 1, "alice", "a@x.com", HashPassword "pw1", 0⟩,
    ⟨2, 2, "bob", "b@x.com", HashPassword "pw2", 0⟩], [], [⟨2, 1⟩]⟩

/-- Sample store for the no-partial-write witness. -/
def dbC4 : Db :=
  ⟨[⟨1, 1, "alice", "a@x.com", HashPassword "pw1", 0⟩,
    ⟨2, 2, "bob", "b@x.com", HashPassword "pw2", 0⟩], [], []⟩

theorem hashPassword_ne_plaintext (p : String) : HashPassword p ≠ p := by
  intro h
  have hlen := congrArg String.length h
  have h7 : ("bcrypt$" : String).length = 7 := rfl
  rw [HashPassword, String.length_append, h7] at hlen
  omega

theorem filter_head_prop {α : Type} (p : α → Bool) (l : List α) (a : α)
    (h : (l.filter p).head? = some a) : p a = true := by
  have hm : a ∈ l.filter p := by
    cases hf : l.filter p with
    | nil => rw [hf] at h; simp at h
    | cons b t =>
      rw [hf, List.head?_cons] at h
      injection h with h
      subst h
      exact List.mem_cons_self b t
  exact (List.mem_filter.mp hm).2

/-- C1: on a fault-free successful login the loginTimestamp embedded in the
returned token equals the last-login timestamp Login persists to that
user's record, so the token is fresh immediately after issuance. -/
theorem login_token_matches_persisted_last_login
    (db : Db) (userInfo : UserLogin) (now : Int) (u : User)
    (hfind : (db.users.filter (fun x => x.email == userInfo.email)).head?
      = some u)
    (hpw : CheckPasswordHash userInfo.password u.password = Except.ok ()) :
    ∃ tok : Token,
      (Login db userInfo none none none now).1 =
        ⟨200, "ok", "", Payload.login u.id u.email u.username tok⟩ ∧
      tok.loginTimestamp = now ∧
      ∀ x ∈ (Login db userInfo none none none now).2.users,
        x.id = u.id → x.lastLogin = tok.loginTimestamp := by
  refine ⟨⟨u.id, now⟩, ?_, rfl, ?_⟩
  · simp [Login, hfind, hpw, GenerateToken]
  · intro x hx hid
    have hx2 : x ∈ (saveUser db { u with lastLogin := now }).users := by
      simpa [Login, hfind, hpw, GenerateToken] using hx
    simp only [saveUser, List.mem_map] at hx2
    obtain ⟨y, _, hxy⟩ := hx2
    by_cases hc : y.id = u.id
    · simp [hc] at hxy
      rw [← hxy]
    · simp [hc] at hxy
      rw [← hxy] at hid
      exact absurd hid hc

/-- Witness for C1 at a concrete store, user and clock. -/
theorem login_token_matches_persisted_last_login_witness :
    ∃ tok : Token,
      (Login dbC1 ⟨"a@x.com", "pw1"⟩ none none none 100).1 =
        ⟨200, "ok", "", Payload.login 1 "a@x.com" "alice" tok⟩ ∧
      tok.loginTimestamp = 100 ∧
      ∀ x ∈ (Login dbC1 ⟨"a@x.com", "pw1"⟩ none none none 100).2.users,
        x.id = 1 → x.lastLogin = tok.loginTimestamp :=
  login_token_matches_persisted_last_login dbC1 ⟨"a@x.com", "pw1"⟩ 100
    ⟨1, 11, "alice", "a@x.com", HashPassword "pw1", 0⟩
    (by decide) (by rfl)

/-- C2 (code bug): when the Save that persists the new last-login fails,
Login still answers 200 / "ok" with the freshly issued token, and the
store keeps the old last-login (0), so success is claimed although the
persist step did not complete. -/
theorem login_reports_ok_even_when_save_fails :
    (Login dbC2 ⟨"a@x.com", "pw1"⟩ none none (some "save failed") 100).1
      = ⟨200, "ok", "",
          Payload.login 1 "a@x.com" "alice" ⟨1, 100⟩⟩ ∧
    (Login dbC2 ⟨"a@x.com", "pw1"⟩ none none (some "save failed") 100).2
      = dbC2 := by
  decide

/-- C10: each protected handler whose context carries no attached user
stops with HTTP 500 and message "parse token failed" and leaves the store
untouched. -/
theorem missing_context_user_yields_500 (db : Db) (userInfo : UserModify)
    (saveErr delErr : Option String) :
    ModifyUser db none userInfo saveErr
      = (⟨500, "error", "parse token failed", Payload.noData⟩, db) ∧
    UserSelf none = ⟨500, "error", "parse token failed", Payload.noData⟩ ∧
    Delete db none delErr
      = (⟨500, "error", "parse token failed", Payload.noData⟩, db) :=
  ⟨rfl, rfl, rfl⟩

/-- C3 counterexample: registering an email that already belongs to an
existing user answers HTTP 400, not the claimed 409. -/
theorem addUser_duplicate_not_409 :
    (AddUser dbC3 none ⟨"bob", "pw2", "a@x.com"⟩ 2 22).1 =
      ⟨400, "error", "user already exist", Payload.noData⟩ ∧
    ¬ (AddUser dbC3 none ⟨"bob", "pw2", "a@x.com"⟩ 2 22).1.code = 409 := by
  decide

/-- C3 (amended): when the email already belongs to an existing user no
row is created and the operation fails with message "user already exist"
and HTTP status 400; when the email is absent exactly one user row is
appended and the new record is returned. -/
theorem addUser_first_or_create (db : Db) (userInfo : UserJson)
    (newId newUid : Nat) :
    if (db.users.filter (fun x => x.email == userInfo.email)).isEmpty then
      AddUser db none userInfo newId newUid =
        (⟨200, "ok", "",
            Payload.info ⟨newId, userInfo.email, userInfo.username⟩⟩,
          { db with users := db.users ++
              [⟨newId, newUid, userInfo.username, userInfo.email,
                userInfo.password, 0⟩] })
    else
      AddUser db none userInfo newId newUid =
        (⟨400, "error", "user already exist", Payload.noData⟩, db) := by
  cases h : (db.users.filter (fun x => x.email == userInfo.email)).isEmpty
  all_goals simp [AddUser, h]

/-- Witness for C3: on the concrete store the duplicate email is refused
with HTTP 400 and the store is unchanged. -/
theorem addUser_first_or_create_witness :
    AddUser dbC3 none ⟨"bob", "pw2", "a@x.com"⟩ 2 22 =
      (⟨400, "error", "user already exist", Payload.noData⟩, dbC3) := by
  have h := addUser_first_or_create dbC3 ⟨"bob", "pw2", "a@x.com"⟩ 2 22
  rw [if_neg] at h
  · exact h
  · decide

/-- C6 counterexample: a wrong password on an existing user yields HTTP
400, not a 401 status. -/
theorem login_wrong_password_not_401 :
    (Login dbC6 ⟨"a@x.com", "pw2"⟩ none none none 100).1 =
      ⟨400, "error", "password not correct", Payload.noData⟩ ∧
    ¬ (Login dbC6 ⟨"a@x.com", "pw2"⟩ none none none 100).1.code = 401 := by
  decide

/-- C6 (amended): for every login on an existing user whose presented
password fails verification, the failure is surfaced with exactly the
message "password not correct" and HTTP status 400, independent of which
verification error occurred, and the store is unchanged. -/
theorem login_wrong_password_message (db : Db) (userInfo : UserLogin)
    (now : Int) (u : User) (e : String)
    (hfind : (db.users.filter (fun x => x.email == userInfo.email)).head?
      = some u)
    (hpw : CheckPasswordHash userInfo.password u.password
      = Except.error e) :
    Login db userInfo none none none now =
      (⟨400, "error", "password not correct", Payload.noData⟩, db) := by
  simp [Login, hfind, hpw]

/-- Witness for C6 at a concrete store and mismatching password. -/
theorem login_wrong_password_message_witness :
    Login dbC6 ⟨"a@x.com", "pw2"⟩ none none none 100 =
      (⟨400, "error", "password not correct", Payload.noData⟩, dbC6) :=
  login_wrong_password_message dbC6 ⟨"a@x.com", "pw2"⟩ 100
    ⟨1, 11, "alice", "a@x.com", HashPassword "pw1", 0⟩
    "hashedPassword is not the hash of the given password"
    (by decide) (by rfl)

/-- C9 counterexample: a lookup by email matching no user answers HTTP
400, neither 422 nor 404. -/
theorem getUser_not_found_not_422_or_404 :
    GetUser dbC9 none "a@x.com" =
      ⟨400, "error", "user not exist", Payload.noData⟩ ∧
    ¬ ((GetUser dbC9 none "a@x.com").code = 422 ∨
        (GetUser dbC9 none "a@x.com").code = 404) := by
  decide

/-- C9 (amended): with a non-empty email, a lookup matching no user fails
with message "user not exist" and HTTP 400, and a storage error is
answered with that error message and HTTP 500. -/
theorem getUser_not_found_and_storage_error (db : Db) (email e : String)
    (hne : email ≠ "") :
    ((db.users.filter (fun x => x.email == email)).head? = none →
      GetUser db none email =
        ⟨400, "error", "user not exist", Payload.noData⟩) ∧
    GetUser db (some e) email = ⟨500, "error", e, Payload.noData⟩ := by
  constructor
  · intro h
    simp [GetUser, hne, h]
  · simp [GetUser, hne]

/-- Witness for C9 on the empty store. -/
theorem getUser_not_found_and_storage_error_witness :
    GetUser dbC9 none "a@x.com" =
      ⟨400, "error", "user not exist", Payload.noData⟩ ∧
    GetUser dbC9 (some "db down") "a@x.com" =
      ⟨500, "error", "db down", Payload.noData⟩ :=
  ⟨(getUser_not_found_and_storage_error dbC9 "a@x.com" "db down"
      (by decide)).1 (by decide),
    (getUser_not_found_and_storage_error dbC9 "a@x.com" "db down"
      (by decide)).2⟩

/-- C8: ModifyUser applies only the non-empty supplied fields — every
field supplied empty leaves the stored value unchanged — and a non-empty
supplied password is stored re-hashed, never as the supplied plaintext. -/
theorem modifyUser_partial_update (db : Db) (u : User)
    (userInfo : UserModify) :
    (ModifyUser db (some u) userInfo none).1.status = "ok" ∧
    ∀ x ∈ (ModifyUser db (some u) userInfo none).2.users, x.id = u.id →
      x.uid = u.uid ∧ x.lastLogin = u.lastLogin ∧
      (userInfo.username = "" → x.username = u.username) ∧
      (userInfo.email = "" → x.email = u.email) ∧
      (userInfo.password = "" → x.password = u.password) ∧
      (userInfo.password ≠ "" →
        x.password = HashPassword userInfo.password ∧
        x.password ≠ userInfo.password) := by
  refine ⟨rfl, ?_⟩
  intro x hx hid
  simp only [ModifyUser, saveUser, List.mem_map] at hx
  obtain ⟨y, _, hxy⟩ := hx
  set u1 := if userInfo.username != "" then
      { u with username := userInfo.username } else u with hu1
  set u2 := if userInfo.email != "" then
      { u1 with email := userInfo.email } else u1 with hu2
  set u3 := if userInfo.password != "" then
      { u2 with password := HashPassword userInfo.password } else u2
    with hu3
  have hid3 : u3.id = u.id := by
    rw [hu3, hu2, hu1]
    split <;> split <;> split <;> rfl
  have hx3 : x = u3 := by
    by_cases hc : y.id = u3.id
    · simpa [hc] using hxy.symm
    · rw [if_neg (by simpa using hc)] at hxy
      rw [← hxy] at hid
      rw [hid3] at hc
      exact absurd hid hc
  subst hx3
  clear hxy hid hid3
  rw [hu3, hu2, hu1]
  by_cases h1 : userInfo.username = "" <;>
    by_cases h2 : userInfo.email = "" <;>
      by_cases h3 : userInfo.password = "" <;>
        simp [h1, h2, h3, hashPassword_ne_plaintext]

/-- Witness for C8: only the username is supplied; email, password hash,
uid and last-login survive unchanged, on the concrete store. -/
theorem modifyUser_partial_update_witness :
    (ModifyUser dbC8 (some ⟨1, 11, "alice", "a@x.com", HashPassword "pw1",
        5⟩) ⟨"carol", "", ""⟩ none).1.status = "ok" ∧
    ∀ x ∈ (ModifyUser dbC8 (some ⟨1, 11, "alice", "a@x.com",
        HashPassword "pw1", 5⟩) ⟨"carol", "", ""⟩ none).2.users,
      x.id = 1 →
      x.uid = 11 ∧ x.lastLogin = 5 ∧
      ((("carol" : String) = "") → x.username = "alice") ∧
      ((("" : String) = "") → x.email = "a@x.com") ∧
      ((("" : String) = "") → x.password = HashPassword "pw1") ∧
      ((("" : String) ≠ "") →
        x.password = HashPassword "" ∧ x.password ≠ "") :=
  modifyUser_partial_update dbC8
    ⟨1, 11, "alice", "a@x.com", HashPassword "pw1", 5⟩ ⟨"carol", "", ""⟩

theorem head_some_not_isEmpty {α : Type} (l : List α) (a : α)
    (h : l.head? = some a) : l.isEmpty = false := by
  cases l with
  | nil => simp at h
  | cons b t => rfl

theorem isEmpty_head_none {α : Type} (l : List α)
    (h : l.isEmpty = true) : l.head? = none := by
  rw [List.isEmpty_iff.mp h]
  rfl

theorem not_isEmpty_head_some {α : Type} (l : List α)
    (h : l.isEmpty = false) : ∃ a, l.head? = some a := by
  cases l with
  | nil => simp at h
  | cons b t => exact ⟨b, rfl⟩

theorem targetExists_isEmpty_false (db : Db) (uid : Nat)
    (h : targetExists db uid = true) :
    (db.users.filter (fun x => x.uid == uid)).isEmpty = false := by
  unfold targetExists at h
  cases hh : (db.users.filter (fun x => x.uid == uid)).isEmpty
  · rfl
  · rw [hh] at h
    simp at h

theorem targetExists_isEmpty_true (db : Db) (uid : Nat)
    (h : targetExists db uid = false) :
    (db.users.filter (fun x => x.uid == uid)).isEmpty = true := by
  unfold targetExists at h
  cases hh : (db.users.filter (fun x => x.uid == uid)).isEmpty
  · rw [hh] at h
    simp at h
  · rfl

theorem hasPending_filter_nil (db : Db) (a b : Nat)
    (h : hasPending db a b = false) :
    db.firendRequests.filter
      (fun r => r.fromUserUID == a && r.toUserUID == b) = [] := by
  unfold hasPending at h
  cases hh : db.firendRequests.filter
      (fun r => r.fromUserUID == a && r.toUserUID == b) with
  | nil => rfl
  | cons x t =>
    rw [hh] at h
    simp at h

theorem firend_uid_eq (db : Db) (uid : Nat) (firend : User)
    (h : (db.users.filter (fun x => x.uid == uid)).head? = some firend) :
    firend.uid = uid := by
  have hp := filter_head_prop (fun x => x.uid == uid) db.users firend h
  simpa using hp

theorem makeFirend_success_eq (db : Db) (u : User) (info : MakeFirendJson)
    (firend : User)
    (hself : (info.uid == u.uid) = false)
    (hfind : (db.users.filter (fun x => x.uid == info.uid)).head?
      = some firend)
    (hc : isContact db u.uid info.uid = false)
    (hp : hasPending db u.uid info.uid = false) :
    MakeFirend db u info none none none =
      (⟨200, "ok", "", Payload.noData⟩,
        { db with firendRequests :=
            db.firendRequests ++ [⟨u.uid, info.uid⟩] },
        [StorageOp.findUserByUid info.uid,
          StorageOp.findContact u.uid info.uid,
          StorageOp.findFirendRequest u.uid info.uid,
          StorageOp.saveFirendRequest u.uid info.uid]) := by
  have hfu : firend.uid = info.uid := firend_uid_eq db info.uid firend hfind
  simp [MakeFirend, hself, hfind, hc, hp, hfu]

/-- C4: MakeFirend writes a friend-request row only when all four checks
pass: every failing run leaves the store unchanged, and an "ok" run
certifies the four checks and appends exactly the one new row. -/
theorem makeFirend_no_partial_write (db : Db) (u : User)
    (info : MakeFirendJson) (fe fc fr : Option String) :
    ((MakeFirend db u info fe fc fr).1.status = "error" →
      (MakeFirend db u info fe fc fr).2.1 = db) ∧
    ((MakeFirend db u info fe fc fr).1.status = "ok" →
      info.uid ≠ u.uid ∧ targetExists db info.uid = true ∧
      isContact db u.uid info.uid = false ∧
      hasPending db u.uid info.uid = false ∧
      (MakeFirend db u info fe fc fr).2.1 =
        { db with firendRequests :=
            db.firendRequests ++ [⟨u.uid, info.uid⟩] }) := by
  by_cases hself : info.uid = u.uid
  · refine ⟨fun _ => ?_, fun h => ?_⟩
    · simp [MakeFirend, hself]
    · simp [MakeFirend, hself] at h
  · have hb : (info.uid == u.uid) = false := beq_false_of_ne hself
    cases fe with
    | some e =>
      refine ⟨fun _ => ?_, fun h => ?_⟩
      · simp [MakeFirend, hb]
      · simp [MakeFirend, hb] at h
    | none =>
      cases hfind : (db.users.filter (fun x => x.uid == info.uid)).head? with
      | none =>
        refine ⟨fun _ => ?_, fun h => ?_⟩
        · simp [MakeFirend, hb, hfind]
        · simp [MakeFirend, hb, hfind] at h
      | some firend =>
        cases fc with
        | some e =>
          refine ⟨fun _ => ?_, fun h => ?_⟩
          · simp [MakeFirend, hb, hfind]
          · simp [MakeFirend, hb, hfind] at h
        | none =>
          cases hcon : isContact db u.uid info.uid with
          | true =>
            refine ⟨fun _ => ?_, fun h => ?_⟩
            · simp [MakeFirend, hb, hfind, hcon]
            · simp [MakeFirend, hb, hfind, hcon] at h
          | false =>
            cases fr with
            | some e =>
              refine ⟨fun _ => ?_, fun h => ?_⟩
              · simp [MakeFirend, hb, hfind, hcon]
              · simp [MakeFirend, hb, hfind, hcon] at h
            | none =>
              cases hpend : hasPending db u.uid info.uid with
              | true =>
                refine ⟨fun _ => ?_, fun h => ?_⟩
                · simp [MakeFirend, hb, hfind, hcon, hpend]
                · simp [MakeFirend, hb, hfind, hcon, hpend] at h
              | false =>
                have heq := makeFirend_success_eq db u info firend hb
                  hfind hcon hpend
                refine ⟨fun h => ?_, fun _ => ?_⟩
                · rw [heq] at h
                  simp at h
                · refine ⟨hself, ?_, rfl, rfl, ?_⟩
                  · unfold targetExists
                    rw [head_some_not_isEmpty _ _ hfind]
                    rfl
                  · rw [heq]

/-- Witness for C4: a failing run (duplicate request) leaves the store
unchanged, on the concrete store with one pending request. -/
theorem makeFirend_no_partial_write_witness :
    (MakeFirend dbC5 ⟨1, 1, "alice", "a@x.com", HashPassword "pw1", 0⟩
        ⟨2⟩ none none none).2.1 = dbC5 :=
  (makeFirend_no_partial_write dbC5
      ⟨1, 1, "alice", "a@x.com", HashPassword "pw1", 0⟩
      ⟨2⟩ none none none).1 (by decide)

/-- C5: the checks run in the order self-request, target existence,
existing contact, pending duplicate; the first failing check answers 422
with its own message and stops, with only the storage queries of the
earlier checks issued, and the duplicate-request message names the target
UID. -/
theorem makeFirend_check_order (db : Db) (u : User)
    (info : MakeFirendJson) :
    (info.uid = u.uid →
      MakeFirend db u info none none none =
        (⟨422, "error", "cannot make firend with self", Payload.noData⟩,
          db, [])) ∧
    (info.uid ≠ u.uid → targetExists db info.uid = false →
      MakeFirend db u info none none none =
        (⟨422, "error", "target user not exist", Payload.noData⟩, db,
          [StorageOp.findUserByUid info.uid])) ∧
    (info.uid ≠ u.uid → targetExists db info.uid = true →
      isContact db u.uid info.uid = true →
      MakeFirend db u info none none none =
        (⟨422, "error", "target user is already firend", Payload.noData⟩,
          db,
          [StorageOp.findUserByUid info.uid,
            StorageOp.findContact u.uid info.uid])) ∧
    (info.uid ≠ u.uid → targetExists db info.uid = true →
      isContact db u.uid info.uid = false →
      hasPending db u.uid info.uid = true →
      MakeFirend db u info none none none =
        (⟨422, "error",
            "already sent a request to user " ++ toString info.uid,
            Payload.noData⟩, db,
          [StorageOp.findUserByUid info.uid,
            StorageOp.findContact u.uid info.uid,
            StorageOp.findFirendRequest u.uid info.uid])) := by
  refine ⟨fun h => ?_, fun hne hte => ?_, fun hne hte hcon => ?_,
    fun hne hte hcon hpend => ?_⟩
  · simp [MakeFirend, h]
  · have hb : (info.uid == u.uid) = false := beq_false_of_ne hne
    have hfind := isEmpty_head_none _ (targetExists_isEmpty_true db info.uid hte)
    simp [MakeFirend, hb, hfind]
  · have hb : (info.uid == u.uid) = false := beq_false_of_ne hne
    obtain ⟨firend, hfind⟩ := not_isEmpty_head_some _
      (targetExists_isEmpty_false db info.uid hte)
    simp [MakeFirend, hb, hfind, hcon]
  · have hb : (info.uid == u.uid) = false := beq_false_of_ne hne
    obtain ⟨firend, hfind⟩ := not_isEmpty_head_some _
      (targetExists_isEmpty_false db info.uid hte)
    have hfu : firend.uid = info.uid := firend_uid_eq db info.uid firend hfind
    simp [MakeFirend, hb, hfind, hcon, hpend, hfu]

/-- Witness for C5: the duplicate-request branch on the concrete store,
with the target UID in the message and only the three Find queries in the
trace. -/
theorem makeFirend_check_order_witness :
    MakeFirend dbC5 ⟨1, 1, "alice", "a@x.com", HashPassword "pw1", 0⟩
        ⟨2⟩ none none none =
      (⟨422, "error", "already sent a request to user " ++ toString (2 : Nat),
          Payload.noData⟩, dbC5,
        [StorageOp.findUserByUid 2, StorageOp.findContact 1 2,
          StorageOp.findFirendRequest 1 2]) :=
  (makeFirend_check_order dbC5
      ⟨1, 1, "alice", "a@x.com", HashPassword "pw1", 0⟩ ⟨2⟩).2.2.2
    (by decide) (by decide) (by decide) (by decide)

/-- C7: the pending-request relation is directional — the duplicate check
and the created row are keyed by the ordered pair (from = requester UID,
to = target UID): a reverse request does not block the submission, the
created row is exactly (requester, target), and at most one outstanding
request per ordered pair is preserved. -/
theorem friend_request_directional (db : Db) (u : User)
    (info : MakeFirendJson)
    (hself : info.uid ≠ u.uid)
    (hex : targetExists db info.uid = true)
    (hc : isContact db u.uid info.uid = false)
    (hp : hasPending db u.uid info.uid = false) :
    (MakeFirend db u info none none none).1.status = "ok" ∧
    (MakeFirend db u info none none none).2.1.firendRequests =
      db.firendRequests ++ [⟨u.uid, info.uid⟩] ∧
    ((∀ a b, (db.firendRequests.filter
          (fun r => r.fromUserUID == a && r.toUserUID == b)).length ≤ 1) →
      ∀ a b,
        ((MakeFirend db u info none none none).2.1.firendRequests.filter
          (fun r => r.fromUserUID == a && r.toUserUID == b)).length ≤ 1) := by
  have hb : (info.uid == u.uid) = false := beq_false_of_ne hself
  obtain ⟨firend, hfind⟩ := not_isEmpty_head_some _
    (targetExists_isEmpty_false db info.uid hex)
  have heq := makeFirend_success_eq db u info firend hb hfind hc hp
  refine ⟨by rw [heq], by rw [heq], ?_⟩
  intro hinv a b
  rw [heq]
  show ((db.firendRequests ++ [(⟨u.uid, info.uid⟩ : FirendRequest)]).filter
    (fun r => r.fromUserUID == a && r.toUserUID == b)).length ≤ 1
  rw [List.filter_append, List.length_append]
  by_cases hab : a = u.uid ∧ b = info.uid
  · obtain ⟨ha, hb2⟩ := hab
    subst ha
    subst hb2
    have hnil := hasPending_filter_nil db u.uid info.uid hp
    rw [hnil]
    simp
  · have hpx : (((⟨u.uid, info.uid⟩ : FirendRequest).fromUserUID == a) &&
        ((⟨u.uid, info.uid⟩ : FirendRequest).toUserUID == b)) = false := by
      simp only [beq_iff_eq, Bool.and_eq_true, not_and] at *
      simp only [Bool.and_eq_false_iff, beq_eq_false_iff_ne, ne_eq]
      omega
    have hnil : ([(⟨u.uid, info.uid⟩ : FirendRequest)].filter
        (fun r => r.fromUserUID == a && r.toUserUID == b)) = [] := by
      simp [List.filter, hpx]
    rw [hnil]
    simpa using hinv a b

/-- Witness for C7: with only the reverse request (2 → 1) stored, user 1
successfully submits to user 2, the created row is (1, 2), and per-pair
uniqueness is preserved. -/
theorem friend_request_directional_witness :
    (MakeFirend dbC7 ⟨1, 1, "alice", "a@x.com", HashPassword "pw1", 0⟩
        ⟨2⟩ none none none).1.status = "ok" ∧
    (MakeFirend dbC7 ⟨1, 1, "alice", "a@x.com", HashPassword "pw1", 0⟩
        ⟨2⟩ none none none).2.1.firendRequests =
      dbC7.firendRequests ++ [⟨1, 2⟩] ∧
    ((∀ a b, (dbC7.firendRequests.filter
          (fun r => r.fromUserUID == a && r.toUserUID == b)).length ≤ 1) →
      ∀ a b,
        ((MakeFirend dbC7 ⟨1, 1, "alice", "a@x.com", HashPassword "pw1",
            0⟩ ⟨2⟩ none none none).2.1.firendRequests.filter
          (fun r => r.fromUserUID == a && r.toUserUID == b)).length ≤ 1) :=
  friend_request_directional dbC7
    ⟨1, 1, "alice", "a@x.com", HashPassword "pw1", 0⟩ ⟨2⟩
    (by decide) (by decide) (by decide) (by decide)

end Gymo
